import Mathlib

/-!
Shallow embedding of the VisionOCR repository:
* the `ocr-process` serverless handler (payload validation, prompt-mode
  dispatch, AI-gateway relay, result normalisation),
* the client OCR engine (`fileToBase64`, `isLikelyHandwritten`,
  `processDocument`),
* the history page's processing pipeline and delete handler
  (`handleOCRProcessing`, `handleHistoryDelete`), viewed as the list of
  database operations / state updates each run performs.

External interactions (the backend auth lookup, the AI gateway fetch,
the database) are modelled by an explicit environment record holding
their outcomes, and the handler additionally returns the list of
external calls it issued, in order.
-/

namespace VisionOCR

/-- Extraction mode: `"printed" | "handwriting" | "mixed"`. -/
inductive OCRMode
  | printed
  | handwriting
  | mixed
deriving DecidableEq, Repr

/-- JSON body of a request to the `ocr-process` function.
`userAccessToken` is optional in the source (`userAccessToken?: string`);
an absent `fileType`/`mode` field of the JS object is modelled by `""` /
`none` respectively (both are falsy, which is all the handler tests). -/
structure OCRRequest where
  imageBase64 : String
  fileName : String
  fileType : String
  mode : Option OCRMode
  userAccessToken : Option String
deriving DecidableEq, Repr

/-- Successful JSON response of the handler (`OCRResponse` in the source). -/
structure OCRResponse where
  extracted_text : String
  processing_time_ms : Nat
  word_count : Nat
  character_count : Nat
  confidence_note : String
deriving DecidableEq, Repr

/-- A response body: either `{error: msg}` or a full `OCRResponse`. -/
inductive Body
  | error (msg : String)
  | result (r : OCRResponse)
deriving DecidableEq, Repr

/-- An HTTP response of the handler (status code plus JSON body). -/
structure Response where
  status : Nat
  body : Body
deriving DecidableEq, Repr

/-- External calls the handler can issue, in the order they happen:
the backend auth lookup `supabaseAdmin.auth.getUser(token)` and the AI
gateway `fetch`, which carries the image URL it sends. -/
inductive Event
  | authLookup (token : String)
  | gatewayFetch (imageUrl : String)
deriving DecidableEq, Repr

/-- Outcomes of the handler's external interactions:
whether `auth.getUser` returns a user, whether `LOVABLE_API_KEY` is
configured, the AI gateway's HTTP status, the extracted content
`data.choices?.[0]?.message?.content` (`none` when missing), and the
elapsed wall-clock time `Date.now() - startTime`. -/
structure Env where
  authOk : Bool
  apiKeySet : Bool
  upstreamStatus : Nat
  upstreamContent : Option String
  elapsedMs : Nat
deriving DecidableEq, Repr

/-- Constant `MAX_SIZE_BYTES = MAX_SIZE_MB * 1024 * 1024` with `MAX_SIZE_MB = 10`. -/
def MAX_SIZE_BYTES : Nat := 10 * 1024 * 1024

/-- The `allowedTypes` list of the handler. -/
def allowedTypes : List String :=
  ["image/png", "image/jpeg", "image/jpg", "image/webp", "image/gif",
   "application/pdf"]

/-- JS truthiness of the optional `userAccessToken` field:
present and not the empty string. -/
def tokenPresent : Option String → Bool
  | none => false
  | some t => t ≠ ""

/-- Fetch API `response.ok`: status in the range 200–299. -/
def httpOk (status : Nat) : Bool := 200 ≤ status && status ≤ 299

/-- JS `s.toLowerCase()`, character by character (the repository only
lowercases ASCII MIME types and file names). -/
def jsToLower (s : String) : String := ⟨s.data.map Char.toLower⟩

/-- JS `s.startsWith(pre)`. -/
def jsStartsWith (s pre : String) : Bool := pre.data.isPrefixOf s.data

/-- JS `s.trim()`: strip whitespace from both ends. -/
def strTrim (s : String) : String :=
  ⟨((s.data.dropWhile Char.isWhitespace).reverse.dropWhile
      Char.isWhitespace).reverse⟩

/-- Source `extractedText.split(/\s+/).filter(Boolean)`: split at whitespace
characters, keep the non-empty pieces. -/
def splitWords (s : String) : List String :=
  ((s.data.splitOnP Char.isWhitespace).map String.mk).filter (fun w => w ≠ "")

/-- Line 128 of the handler:
`fileType && !allowedTypes.includes(fileType.toLowerCase())` — the
MIME-type check fires only for a truthy (non-empty) `fileType` whose
lowercasing is outside the allowlist. -/
def fileTypeInvalid (fileType : String) : Bool :=
  fileType ≠ "" && !(allowedTypes.contains (jsToLower fileType))

/-- Lines 181–187 of the handler: use the payload as the image URL when it
already carries a data-URL marker, otherwise prepend
`data:<fileType || "image/png">;base64,`. -/
def mkImageUrl (imageBase64 fileType : String) : String :=
  if jsStartsWith imageBase64 "data:" then imageBase64
  else "data:" ++ (if fileType = "" then "image/png" else fileType)
       ++ ";base64," ++ imageBase64

/-- The normalised success result (lines 250–261): word count from the
whitespace split of the extracted text, character count from its length,
and a mode-dependent confidence note. -/
def mkResult (env : Env) (payload : OCRRequest) (extractedText : String) :
    OCRResponse :=
  { extracted_text := extractedText
    processing_time_ms := env.elapsedMs
    word_count := (splitWords extractedText).length
    character_count := extractedText.length
    confidence_note :=
      if payload.mode.getD OCRMode.mixed = OCRMode.handwriting then
        "Handwriting recognition - accuracy may vary based on writing clarity"
      else "High confidence OCR extraction" }

/-- The `ocr-process` serverless handler (lines 55–284 of the edge
function), as a function of the request payload and the outcomes of its
external interactions.  It returns the HTTP response together with the
ordered list of external calls it issued.  The branches appear in source
order: missing token (401), failed auth lookup (401), missing API key
(throw, caught as 500), missing image data (400), size limit (400, the
exact comparison `imageBase64.length * 3 / 4 > MAX_SIZE_BYTES` written
division-free as `3 * length > 4 * MAX_SIZE_BYTES`), file-type allowlist
(400, skipped for a falsy `fileType`), then the gateway call: 429 and
402 are mapped to themselves, any other non-ok status throws (500), an
extracted text that trims to empty throws (500), and otherwise the
normalised result is returned (status 200). -/
def serveHandler (env : Env) (payload : OCRRequest) :
    Response × List Event :=
  if tokenPresent payload.userAccessToken = false then
    ({ status := 401, body := .error "Authentication required" }, [])
  else if env.authOk = false then
    ({ status := 401, body := .error "Unauthorized" },
     [Event.authLookup (payload.userAccessToken.getD "")])
  else if env.apiKeySet = false then
    ({ status := 500, body := .error "LOVABLE_API_KEY is not configured" },
     [Event.authLookup (payload.userAccessToken.getD "")])
  else if payload.imageBase64 = "" then
    ({ status := 400, body := .error "No image data provided" },
     [Event.authLookup (payload.userAccessToken.getD "")])
  else if 4 * MAX_SIZE_BYTES < 3 * payload.imageBase64.length then
    ({ status := 400, body := .error "File too large. Maximum size is 10MB" },
     [Event.authLookup (payload.userAccessToken.getD "")])
  else if fileTypeInvalid payload.fileType = true then
    ({ status := 400,
       body := .error "Invalid file type. Allowed: PNG, JPEG, WebP, GIF, PDF" },
     [Event.authLookup (payload.userAccessToken.getD "")])
  else if httpOk env.upstreamStatus = false then
    if env.upstreamStatus = 429 then
      ({ status := 429,
         body := .error "Rate limit exceeded. Please try again in a moment." },
       [Event.authLookup (payload.userAccessToken.getD ""),
        Event.gatewayFetch (mkImageUrl payload.imageBase64 payload.fileType)])
    else if env.upstreamStatus = 402 then
      ({ status := 402,
         body := .error "Usage limit reached. Please add credits to continue." },
       [Event.authLookup (payload.userAccessToken.getD ""),
        Event.gatewayFetch (mkImageUrl payload.imageBase64 payload.fileType)])
    else
      ({ status := 500,
         body := .error ("AI Gateway error: " ++ toString env.upstreamStatus) },
       [Event.authLookup (payload.userAccessToken.getD ""),
        Event.gatewayFetch (mkImageUrl payload.imageBase64 payload.fileType)])
  else if strTrim (env.upstreamContent.getD "") = "" then
    ({ status := 500,
       body := .error "No text could be extracted from the image" },
     [Event.authLookup (payload.userAccessToken.getD ""),
      Event.gatewayFetch (mkImageUrl payload.imageBase64 payload.fileType)])
  else
    ({ status := 200,
       body := .result (mkResult env payload (env.upstreamContent.getD "")) },
     [Event.authLookup (payload.userAccessToken.getD ""),
      Event.gatewayFetch (mkImageUrl payload.imageBase64 payload.fileType)])

/-! ### Client OCR engine (`src/services/ocrEngine.ts`) -/

/-- The string `FileReader.readAsDataURL` produces for a file whose MIME
type is `mime` and whose bytes encode in base64 as `b64`. -/
def readAsDataURL (mime b64 : String) : String :=
  "data:" ++ mime ++ ";base64," ++ b64

/-- Source `fileToBase64`: `reader.result.split(",")[1]` — split the data URL at
every comma and take the piece at index 1 (`none` when the string has no
comma, where the JS resolves `undefined`). -/
def fileToBase64 (dataUrl : String) : Option String :=
  ((dataUrl.data.splitOnP (fun c => c == ',')).map String.mk).get? 1

/-- JS `s.includes(sub)`: substring containment, as a decidable check on
the character lists. -/
def strIncludes (s sub : String) : Bool :=
  decide (sub.toList <:+: s.toList)

/-- The `handwritingKeywords` list of `isLikelyHandwritten`. -/
def handwritingKeywords : List String :=
  ["handwritten", "handwriting", "notes", "notebook", "manuscript",
   "letter", "diary", "journal"]

/-- Source `isLikelyHandwritten`: some keyword occurs in the lowercased name. -/
def isLikelyHandwritten (fileName : String) : Bool :=
  handwritingKeywords.any
    (fun keyword => strIncludes (jsToLower fileName) keyword)

/-- Expression `mode || (isLikelyHandwritten(file.name) ? "handwriting" : "mixed")`
from `processDocument`. -/
def detectedMode (mode : Option OCRMode) (fileName : String) : OCRMode :=
  mode.getD (if isLikelyHandwritten fileName then .handwriting else .mixed)

/-- Where `processDocument` dispatches, with the mode it selected. -/
inductive Dispatch
  | pdf (mode : OCRMode)
  | image (mode : OCRMode)
deriving DecidableEq, Repr

/-- The mode a dispatch carries. -/
def Dispatch.mode : Dispatch → OCRMode
  | .pdf m => m
  | .image m => m

/-- Source `processDocument`: selects the mode (auto-detected when unspecified)
and routes PDFs to `processPDF`, `image/*` files to `processImage`, and
throws on anything else. -/
def processDocument (fileName fileType : String) (mode : Option OCRMode) :
    Except String Dispatch :=
  if fileType = "application/pdf" then
    .ok (.pdf (detectedMode mode fileName))
  else if jsStartsWith fileType "image/" then
    .ok (.image (detectedMode mode fileName))
  else
    .error ("Unsupported file type: " ++ fileType)

/-! ### Processing pipeline and history (`src/pages/Index.tsx`) -/

/-- Database operations `handleOCRProcessing` can issue against the
`documents` / `ocr_results` tables. -/
inductive DbOp
  | insertDoc (status : String)
  | insertResult
  | updateDoc (status : String)
deriving DecidableEq, Repr

/-- Whether an operation updates the document's `status` column. -/
def DbOp.isStatusUpdate : DbOp → Bool
  | .updateDoc _ => true
  | _ => false

/-- The database operations one run of `handleOCRProcessing` performs,
in order, as a function of whether the document insert succeeds and
whether `processDocument` resolves.  The document row is always inserted
with `status: "processing"`; on OCR success the result row is inserted
(a failure of that insert is only logged) and the status is set to
`"completed"`; on OCR failure the status is set to `"failed"`; if the
initial insert fails the run stops with no operations recorded. -/
def handleOCRProcessing (insertOk ocrSuccess : Bool) : List DbOp :=
  if insertOk then
    DbOp.insertDoc "processing" ::
      (if ocrSuccess then [DbOp.insertResult, DbOp.updateDoc "completed"]
       else [DbOp.updateDoc "failed"])
  else []

/-- A roster entry of the client history list. -/
structure HistoryItem where
  id : String
  fileName : String
  extractedText : String
deriving DecidableEq, Repr

/-- Relational state: the ids of `documents` rows and, for each
`ocr_results` row, the `document_id` it links to. -/
structure DbState where
  documents : List String
  ocrResults : List String
deriving DecidableEq, Repr

/-- Modelled from the spec: the effect on the store of
`supabase.from("documents").delete().eq("id", id)`.  The migration that
declares the `ocr_results.document_id` foreign key is not among the
provided sources; per the spec's data model, deletion of a document
cascades to its linked OCR result, so the matching `documents` row and
every `ocr_results` row linked to it are removed. -/
def dbDeleteDocument (db : DbState) (id : String) : DbState :=
  { documents := db.documents.filter (fun d => d ≠ id)
    ocrResults := db.ocrResults.filter (fun docId => docId ≠ id) }

/-- Source `handleHistoryDelete`: issues the database delete; on failure it
leaves the history untouched (only a toast is shown), on success it
filters the deleted id out of the history list. -/
def handleHistoryDelete (db : DbState) (history : List HistoryItem)
    (id : String) (deleteOk : Bool) : DbState × List HistoryItem :=
  if deleteOk then
    (dbDeleteDocument db id, history.filter (fun item => item.id ≠ id))
  else
    (db, history)

/-! ### Concrete fixtures used by the witnesses -/

/-- An environment in which every external interaction succeeds. -/
def envOk : Env :=
  { authOk := true, apiKeySet := true, upstreamStatus := 200,
    upstreamContent := some "hello  world", elapsedMs := 5 }

/-- Environment whose gateway answers 429. -/
def env429 : Env := { envOk with upstreamStatus := 429, upstreamContent := none }

/-- Environment whose gateway answers 402. -/
def env402 : Env := { envOk with upstreamStatus := 402, upstreamContent := none }

/-- Environment whose gateway answers 503. -/
def env503 : Env := { envOk with upstreamStatus := 503, upstreamContent := none }

/-- Environment whose gateway succeeds but returns whitespace-only text. -/
def envBlank : Env := { envOk with upstreamContent := some "  \n " }

/-- A small well-formed request. -/
def payloadOk : OCRRequest :=
  { imageBase64 := "AAAA", fileName := "scan.png", fileType := "image/png",
    mode := none, userAccessToken := some "tok" }

/-- The same request without a `userAccessToken` field. -/
def payloadNoToken : OCRRequest := { payloadOk with userAccessToken := none }

/-- A request whose payload decodes to just over 10 MB
(13981014 × 3 / 4 = 10485760.5 bytes), with a disallowed MIME type. -/
def payloadBig : OCRRequest :=
  { payloadOk with
    imageBase64 := String.mk (List.replicate 13981014 'A')
    fileType := "text/plain" }

/-! ### Claims about the serverless handler -/

/-- C1: for every successful OCR handler response, the returned
`word_count` equals the number of non-empty substrings obtained by
splitting the returned `extracted_text` on whitespace, and the returned
`character_count` equals the length of the returned `extracted_text`. -/
theorem serveHandler_success_counts (env : Env) (payload : OCRRequest)
    (r : OCRResponse)
    (h : (serveHandler env payload).1.body = Body.result r) :
    r.word_count = (splitWords r.extracted_text).length ∧
    r.character_count = r.extracted_text.length := by
  unfold serveHandler at h
  split_ifs at h
  simp only [Body.result.injEq] at h
  subst h
  exact ⟨rfl, rfl⟩

/-- Witness for C1 at a concrete successful request. -/
theorem serveHandler_success_counts_witness :
    (mkResult envOk payloadOk "hello  world").word_count =
      (splitWords (mkResult envOk payloadOk "hello  world").extracted_text).length ∧
    (mkResult envOk payloadOk "hello  world").character_count =
      (mkResult envOk payloadOk "hello  world").extracted_text.length :=
  serveHandler_success_counts envOk payloadOk _ (by decide)

/-- C2: an authenticated request whose base64 payload has a decoded size
estimate above 10 MB is answered 400 with the size message, whatever its
`fileType` is (in particular the size check fires before the MIME-type
check).  The source comparison `imageBase64.length * 3 / 4 > 10485760`
over exact (here: float-exact) arithmetic is the hypothesis
`4 * MAX_SIZE_BYTES < 3 * length`. -/
theorem serveHandler_oversize_400 (env : Env) (payload : OCRRequest)
    (htok : tokenPresent payload.userAccessToken = true)
    (hauth : env.authOk = true)
    (hkey : env.apiKeySet = true)
    (hsize : 4 * MAX_SIZE_BYTES < 3 * payload.imageBase64.length) :
    (serveHandler env payload).1 =
      { status := 400,
        body := .error "File too large. Maximum size is 10MB" } := by
  have himg : ¬ payload.imageBase64 = "" := by
    intro hempty
    rw [hempty] at hsize
    norm_num [MAX_SIZE_BYTES] at hsize
  unfold serveHandler
  simp [htok, hauth, hkey, himg, hsize]

/-- Witness for C2: an oversized payload with a disallowed MIME type is
still answered with the size error. -/
theorem serveHandler_oversize_400_witness :
    (serveHandler envOk payloadBig).1 =
      { status := 400,
        body := .error "File too large. Maximum size is 10MB" } :=
  serveHandler_oversize_400 envOk payloadBig rfl rfl rfl
    (by
      have hl : payloadBig.imageBase64.length = 13981014 := by
        show (List.replicate 13981014 'A').length = 13981014
        exact List.length_replicate _ _
      rw [hl]
      norm_num [MAX_SIZE_BYTES])

/-- C3: a request without a `userAccessToken` is answered 401, and
neither the backend auth lookup nor the AI gateway fetch is issued
(the list of external calls is empty). -/
theorem serveHandler_missing_token_401_no_calls (env : Env)
    (payload : OCRRequest) (h : payload.userAccessToken = none) :
    (serveHandler env payload).1.status = 401 ∧
    (serveHandler env payload).2 = [] := by
  unfold serveHandler
  simp [h, tokenPresent]

/-- Witness for C3 at a concrete token-less request. -/
theorem serveHandler_missing_token_401_no_calls_witness :
    (serveHandler envOk payloadNoToken).1.status = 401 ∧
    (serveHandler envOk payloadNoToken).2 = [] :=
  serveHandler_missing_token_401_no_calls envOk payloadNoToken rfl

/-- C4: when the AI gateway answers 429, the handler answers 429 with
the fixed rate-limit message; when the gateway answers 402, the handler
answers 402.  The hypotheses state that the request passes every earlier
validation step. -/
theorem serveHandler_upstream_rate_quota (env : Env) (payload : OCRRequest)
    (htok : tokenPresent payload.userAccessToken = true)
    (hauth : env.authOk = true)
    (hkey : env.apiKeySet = true)
    (himg : payload.imageBase64 ≠ "")
    (hsize : ¬ 4 * MAX_SIZE_BYTES < 3 * payload.imageBase64.length)
    (htype : fileTypeInvalid payload.fileType = false) :
    (env.upstreamStatus = 429 →
      (serveHandler env payload).1 =
        { status := 429,
          body := .error "Rate limit exceeded. Please try again in a moment." }) ∧
    (env.upstreamStatus = 402 →
      (serveHandler env payload).1.status = 402) := by
  refine ⟨fun hs => ?_, fun hs => ?_⟩ <;>
  · unfold serveHandler
    simp [htok, hauth, hkey, himg, hsize, htype, hs, httpOk]

/-- Witness for C4: concrete 429 and 402 gateway outcomes. -/
theorem serveHandler_upstream_rate_quota_witness :
    (serveHandler env429 payloadOk).1 =
      { status := 429,
        body := .error "Rate limit exceeded. Please try again in a moment." } ∧
    (serveHandler env402 payloadOk).1.status = 402 :=
  ⟨(serveHandler_upstream_rate_quota env429 payloadOk rfl rfl rfl
      (by decide) (by decide) (by decide)).1 rfl,
   (serveHandler_upstream_rate_quota env402 payloadOk rfl rfl rfl
      (by decide) (by decide) (by decide)).2 rfl⟩

/-- C5: a gateway failure other than 429/402, or an extraction whose
text trims to empty, is surfaced as a 500 response carrying a JSON
error message.  The hypotheses state that the request passes every
validation step. -/
theorem serveHandler_generic_failure_500 (env : Env) (payload : OCRRequest)
    (htok : tokenPresent payload.userAccessToken = true)
    (hauth : env.authOk = true)
    (hkey : env.apiKeySet = true)
    (himg : payload.imageBase64 ≠ "")
    (hsize : ¬ 4 * MAX_SIZE_BYTES < 3 * payload.imageBase64.length)
    (htype : fileTypeInvalid payload.fileType = false) :
    (httpOk env.upstreamStatus = false → env.upstreamStatus ≠ 429 →
      env.upstreamStatus ≠ 402 →
      (serveHandler env payload).1.status = 500 ∧
      ∃ msg, (serveHandler env payload).1.body = Body.error msg) ∧
    (httpOk env.upstreamStatus = true →
      strTrim (env.upstreamContent.getD "") = "" →
      (serveHandler env payload).1.status = 500 ∧
      ∃ msg, (serveHandler env payload).1.body = Body.error msg) := by
  constructor
  · intro hok h429 h402
    unfold serveHandler
    simp [htok, hauth, hkey, himg, hsize, htype, hok, h429, h402]
  · intro hok htrim
    unfold serveHandler
    simp [htok, hauth, hkey, himg, hsize, htype, hok, htrim]

/-- Witness for C5: a 503 gateway outcome and a whitespace-only
extraction, both at concrete requests. -/
theorem serveHandler_generic_failure_500_witness :
    ((serveHandler env503 payloadOk).1.status = 500 ∧
      ∃ msg, (serveHandler env503 payloadOk).1.body = Body.error msg) ∧
    ((serveHandler envBlank payloadOk).1.status = 500 ∧
      ∃ msg, (serveHandler envBlank payloadOk).1.body = Body.error msg) :=
  ⟨(serveHandler_generic_failure_500 env503 payloadOk rfl rfl rfl
      (by decide) (by decide) (by decide)).1 (by decide) (by decide) (by decide),
   (serveHandler_generic_failure_500 envBlank payloadOk rfl rfl rfl
      (by decide) (by decide) (by decide)).2 (by decide) (by decide)⟩

/-! ### Claims about the client capture layer -/

/-- C6 counterexample: for a PNG file whose FileReader data URL is
`data:image/png;base64,AAAA`, the payload the client sends to the
handler is the bare `AAAA`, which does not begin with
`data:image/png;base64,` (nor with `data:` at all). -/
theorem fileToBase64_payload_not_data_url :
    fileToBase64 (readAsDataURL "image/png" "AAAA") = some "AAAA" ∧
    jsStartsWith "AAAA" "data:image/png;base64," = false ∧
    jsStartsWith "AAAA" "data:" = false := by decide

/-- C6 (amended): the client capture layer strips the data-URL prefix —
the payload sent to the handler is the bare base64 after the first comma
of the FileReader data URL — and it is the handler's image-URL
construction that carries the MIME-type-prefixed data URL
`data:<fileType || "image/png">;base64,<payload>`. -/
theorem client_payload_lacks_data_url (mime b64 ft : String)
    (hm : ',' ∉ mime.data) (hb : ',' ∉ b64.data)
    (hpre : jsStartsWith b64 "data:" = false) :
    fileToBase64 (readAsDataURL mime b64) = some b64 ∧
    mkImageUrl b64 ft =
      "data:" ++ (if ft = "" then "image/png" else ft) ++ ";base64," ++ b64 := by
  constructor
  · show (((readAsDataURL mime b64).data.splitOnP
        (fun c => c == ',')).map String.mk).get? 1 = some b64
    have h1 : (readAsDataURL mime b64).data =
        ("data:".data ++ mime.data ++ [';', 'b', 'a', 's', 'e', '6', '4']) ++
          ',' :: b64.data := by
      show ("data:" ++ mime ++ ";base64," ++ b64).data = _
      simp only [String.data_append, List.append_assoc]
      rfl
    have hxs : ∀ x ∈ ("data:".data ++ mime.data ++
        [';', 'b', 'a', 's', 'e', '6', '4']), ¬((x == ',') = true) := by
      intro x hx
      rcases List.mem_append.mp hx with hx' | hx'
      · rcases List.mem_append.mp hx' with hxd | hxm
        · revert hxd
          have hlit : ∀ y ∈ "data:".data, ¬((y == ',') = true) := by decide
          exact hlit x
        · intro hc
          exact hm (eq_of_beq hc ▸ hxm)
      · revert hx'
        have hlit : ∀ y ∈ [';', 'b', 'a', 's', 'e', '6', '4'],
            ¬((y == ',') = true) := by decide
        exact hlit x
    have hbs : ∀ x ∈ b64.data, ¬((x == ',') = true) := by
      intro x hx hc
      exact hb (eq_of_beq hc ▸ hx)
    rw [h1,
      List.splitOnP_first (fun c => c == ',')
        ("data:".data ++ mime.data ++ [';', 'b', 'a', 's', 'e', '6', '4'])
        hxs ',' (by decide) b64.data,
      List.splitOnP_eq_single (fun c => c == ',') b64.data hbs]
    rfl
  · simp [mkImageUrl, hpre]

/-- Witness for the amended C6 at a concrete PNG upload. -/
theorem client_payload_lacks_data_url_witness :
    fileToBase64 (readAsDataURL "image/png" "AAAA") = some "AAAA" ∧
    mkImageUrl "AAAA" "" =
      "data:" ++ (if "" = "" then "image/png" else "") ++ ";base64," ++ "AAAA" :=
  client_payload_lacks_data_url "image/png" "AAAA" ""
    (by decide) (by decide) (by decide)

/-- Predicate `isLikelyHandwritten` is true exactly when some keyword of the list
occurs inside the lowercased file name. -/
theorem isLikelyHandwritten_eq_true_iff (name : String) :
    isLikelyHandwritten name = true ↔
      ∃ k ∈ handwritingKeywords, k.toList <:+: (jsToLower name).toList := by
  unfold isLikelyHandwritten strIncludes
  rw [List.any_eq_true]
  simp only [decide_eq_true_eq]

/-- C7: with no mode specified, `processDocument` selects
`"handwriting"` exactly when the lowercased file name contains one of
the handwriting keywords, and `"mixed"` otherwise. -/
theorem processDocument_mode_heuristic (name ft : String) (d : Dispatch)
    (h : processDocument name ft none = Except.ok d) :
    (d.mode = OCRMode.handwriting ↔
      ∃ k ∈ handwritingKeywords, k.toList <:+: (jsToLower name).toList) ∧
    (d.mode = OCRMode.handwriting ∨ d.mode = OCRMode.mixed) := by
  have hmode : d.mode = detectedMode none name := by
    unfold processDocument at h
    split_ifs at h
    · injection h with h'
      subst h'
      rfl
    · injection h with h'
      subst h'
      rfl
  have hiff := isLikelyHandwritten_eq_true_iff name
  rw [hmode]
  cases hlh : isLikelyHandwritten name with
  | false =>
    rw [hlh] at hiff
    constructor
    · constructor
      · intro hcontra
        exact absurd hcontra (by simp [detectedMode, hlh])
      · intro hex
        exact absurd (hiff.mpr hex) (by simp)
    · right
      simp [detectedMode, hlh]
  | true =>
    rw [hlh] at hiff
    constructor
    · constructor
      · intro _
        exact hiff.mp rfl
      · intro _
        simp [detectedMode, hlh]
    · left
      simp [detectedMode, hlh]

/-- Witness for C7: `my notes.png` with no mode is routed to image OCR
in handwriting mode. -/
theorem processDocument_mode_heuristic_witness :
    ((Dispatch.image OCRMode.handwriting).mode = OCRMode.handwriting ↔
      ∃ k ∈ handwritingKeywords,
        k.toList <:+: (jsToLower "my notes.png").toList) ∧
    ((Dispatch.image OCRMode.handwriting).mode = OCRMode.handwriting ∨
      (Dispatch.image OCRMode.handwriting).mode = OCRMode.mixed) :=
  processDocument_mode_heuristic "my notes.png" "image/png"
    (Dispatch.image OCRMode.handwriting) rfl

/-! ### Claims about the persistence pipeline -/

/-- C8: every document row is inserted with status `"processing"`; at
most one status update follows, to `"completed"` on OCR success and to
`"failed"` on OCR failure; no other status value ever occurs. -/
theorem handleOCRProcessing_status_lifecycle (insertOk ocrSuccess : Bool) :
    (∀ s, DbOp.insertDoc s ∈ handleOCRProcessing insertOk ocrSuccess →
      s = "processing") ∧
    (handleOCRProcessing insertOk ocrSuccess).countP DbOp.isStatusUpdate ≤ 1 ∧
    (∀ s, DbOp.updateDoc s ∈ handleOCRProcessing insertOk ocrSuccess →
      s = "completed" ∨ s = "failed") ∧
    (insertOk = true → ocrSuccess = true →
      DbOp.updateDoc "completed" ∈ handleOCRProcessing insertOk ocrSuccess) ∧
    (insertOk = true → ocrSuccess = false →
      DbOp.updateDoc "failed" ∈ handleOCRProcessing insertOk ocrSuccess) := by
  cases insertOk <;> cases ocrSuccess <;>
    simp [handleOCRProcessing, DbOp.isStatusUpdate, List.countP, List.countP.go]

/-- Witness for C8: the two completed runs perform the matching single
status update. -/
theorem handleOCRProcessing_status_lifecycle_witness :
    DbOp.updateDoc "completed" ∈ handleOCRProcessing true true ∧
    DbOp.updateDoc "failed" ∈ handleOCRProcessing true false :=
  ⟨(handleOCRProcessing_status_lifecycle true true).2.2.2.1 rfl rfl,
   (handleOCRProcessing_status_lifecycle true false).2.2.2.2 rfl rfl⟩

/-- Concrete store and history used by the C9 witness. -/
def dbW : DbState := { documents := ["d1", "d2"], ocrResults := ["d1", "d2"] }

/-- Concrete history list used by the C9 witness. -/
def historyW : List HistoryItem :=
  [{ id := "d1", fileName := "a.png", extractedText := "x" },
   { id := "d2", fileName := "b.png", extractedText := "y" }]

/-- C9: a successful delete removes the document, its linked OCR result
rows, and the matching history item; a failed delete leaves everything
unchanged. -/
theorem handleHistoryDelete_removes (db : DbState)
    (history : List HistoryItem) (id : String) (deleteOk : Bool) :
    (deleteOk = true →
      (∀ docId ∈ (handleHistoryDelete db history id deleteOk).1.ocrResults,
        docId ≠ id) ∧
      (∀ d ∈ (handleHistoryDelete db history id deleteOk).1.documents,
        d ≠ id) ∧
      (∀ item ∈ (handleHistoryDelete db history id deleteOk).2,
        item.id ≠ id)) ∧
    (deleteOk = false →
      handleHistoryDelete db history id deleteOk = (db, history)) := by
  cases deleteOk <;>
    simp [handleHistoryDelete, dbDeleteDocument, List.mem_filter]

/-- The MIME-type check fires exactly for a non-empty `fileType` whose
lowercasing is outside the allowlist. -/
theorem fileTypeInvalid_eq_true_iff (ft : String) :
    fileTypeInvalid ft = true ↔
      ft ≠ "" ∧ allowedTypes.contains (jsToLower ft) = false := by
  simp [fileTypeInvalid]

/-- Request with an empty `fileType` field, used by the C10 witness. -/
def payloadNoType : OCRRequest := { payloadOk with fileType := "" }

/-- Small request with a disallowed MIME type, used by the C10 witness. -/
def payloadBadType : OCRRequest := { payloadOk with fileType := "text/plain" }

/-- C10: for a request that passes authentication and the earlier data
checks, the 400 "Invalid file type" response is returned if and only if
`fileType` is non-empty with a lowercasing outside the allowlist (so the
MIME validation is skipped entirely for an absent or empty `fileType`);
and such a request whose payload lacks a data-URL marker reaches the
gateway with the default `data:image/png;base64,` prefix. -/
theorem serveHandler_fileType_validation (env : Env) (payload : OCRRequest)
    (htok : tokenPresent payload.userAccessToken = true)
    (hauth : env.authOk = true)
    (hkey : env.apiKeySet = true)
    (himg : payload.imageBase64 ≠ "")
    (hsize : ¬ 4 * MAX_SIZE_BYTES < 3 * payload.imageBase64.length) :
    ((serveHandler env payload).1 =
        { status := 400,
          body := .error "Invalid file type. Allowed: PNG, JPEG, WebP, GIF, PDF" } ↔
      payload.fileType ≠ "" ∧
        allowedTypes.contains (jsToLower payload.fileType) = false) ∧
    (payload.fileType = "" →
      jsStartsWith payload.imageBase64 "data:" = false →
      Event.gatewayFetch ("data:image/png;base64," ++ payload.imageBase64) ∈
        (serveHandler env payload).2) := by
  constructor
  · rw [← fileTypeInvalid_eq_true_iff]
    cases hft : fileTypeInvalid payload.fileType with
    | true =>
      unfold serveHandler
      simp [htok, hauth, hkey, himg, hsize, hft]
    | false =>
      unfold serveHandler
      simp only [htok, hauth, hkey, himg, hsize, hft]
      constructor
      · intro hres
        exfalso
        revert hres
        split_ifs <;> simp
      · intro hcontra
        cases hcontra
  · intro hft hpre
    have hinv : fileTypeInvalid payload.fileType = false := by
      simp [fileTypeInvalid, hft]
    have hurl : mkImageUrl payload.imageBase64 payload.fileType =
        "data:image/png;base64," ++ payload.imageBase64 := by
      rw [mkImageUrl, hpre, hft]
      rfl
    unfold serveHandler
    simp [htok, hauth, hkey, himg, hsize, hinv, hurl]
    split_ifs <;> simp

/-- Witness for C10: a disallowed `text/plain` upload is rejected with
the invalid-type response, and an upload with an empty `fileType` and a
bare base64 payload reaches the gateway under the default PNG data URL. -/
theorem serveHandler_fileType_validation_witness :
    (serveHandler envOk payloadBadType).1 =
      { status := 400,
        body := .error "Invalid file type. Allowed: PNG, JPEG, WebP, GIF, PDF" } ∧
    Event.gatewayFetch ("data:image/png;base64," ++ payloadNoType.imageBase64) ∈
      (serveHandler envOk payloadNoType).2 :=
  ⟨((serveHandler_fileType_validation envOk payloadBadType rfl rfl rfl
      (by decide) (by decide)).1).mpr (by decide),
   (serveHandler_fileType_validation envOk payloadNoType rfl rfl rfl
      (by decide) (by decide)).2 rfl (by decide)⟩

/-- Witness for C9 at a concrete store, history and id. -/
theorem handleHistoryDelete_removes_witness :
    (∀ docId ∈ (handleHistoryDelete dbW historyW "d1" true).1.ocrResults,
      docId ≠ "d1") ∧
    (∀ d ∈ (handleHistoryDelete dbW historyW "d1" true).1.documents,
      d ≠ "d1") ∧
    (∀ item ∈ (handleHistoryDelete dbW historyW "d1" true).2,
      item.id ≠ "d1") :=
  (handleHistoryDelete_removes dbW historyW "d1" true).1 rfl

end VisionOCR
